import Mathlib

/-!
# FlorisApplication.cpp: the native ICU initialisation bridge

A shallow embedding of `app/src/main/cpp/FlorisApplication.cpp`, whose single
exported function is

    return fl::jni::runInExceptionContainer(env, [&] {
        auto path_str = fl::jni::j2std_string(env, path);
        auto status = fl::icuext::loadAndSetCommonData(path_str);
        return status;
    });

C++ code that may throw and that mutates process-wide state is embedded as a
function from the process state to a pair of an `Except` result and the state
reached: a `throw` abandons the rest of the block but keeps every state change
made before it (C++ has no rollback).
-/

namespace Floris

/-! ## Data model -/

/-- A native (C++) exception in flight, identified by its `what()` text. -/
structure NativeException where
  what : String
deriving DecidableEq, Repr

/-- A managed (Java) throwable, as signalled through the JNI environment. -/
structure JThrowable where
  className : String
  message : String
deriving DecidableEq, Repr

/-- The part of the state behind `JNIEnv* env` that the bridge can observe: the
managed exception pending on the calling thread, if any. -/
structure JNIEnv where
  pending : Option JThrowable
deriving DecidableEq, Repr

/-- The state of `env` when the managed runtime enters a native method: no
managed exception is pending. -/
def JNIEnv.entry : JNIEnv := { pending := none }

/-- Signalling a managed exception on the environment (`env->Throw`). -/
def JNIEnv.Throw (env : JNIEnv) (t : JThrowable) : JNIEnv :=
  { env with pending := some t }

/-- The managed string reference `fl::jni::NativeStr path` handed over by the
runtime: the null reference, a reference that does not designate a well-formed
managed string, or a reference to a managed string with the given characters. -/
inductive NativeStr where
  | null : NativeStr
  | malformed : NativeStr
  | valid (chars : String) : NativeStr
deriving DecidableEq, Repr

/-- The state a call runs in. `env` is the JNI environment of the calling
thread, `icu` the process-wide ICU state owned by the external library (of an
arbitrary type `σ`), and `loaderCalls` a history of the arguments with which
`loadAndSetCommonData` has been invoked, oldest first. -/
structure Process (σ : Type) where
  env : JNIEnv
  icu : σ
  loaderCalls : List String

deriving instance DecidableEq for Except

/-- A C++ computation with result type `α`: it runs in a process state and
either returns a value or throws, leaving a process state behind in both
cases. -/
def Native (σ α : Type) : Type :=
  Process σ → Except NativeException α × Process σ

/-- Sequencing of C++ statements: the second statement runs in the state left
by the first, and is skipped when the first throws. -/
instance instMonadNative (σ : Type) : Monad (Native σ) where
  pure a := fun p => (Except.ok a, p)
  bind m f := fun p =>
    match m p with
    | (Except.ok a, p') => f a p'
    | (Except.error e, p') => (Except.error e, p')

/-! ## Collaborators that are not part of the translated file -/

/-- The functions and constants that `FlorisApplication.cpp` uses but does not
define, taken as parameters.

* `j2std_string env path` (utils/jni_utils.h) converts the managed reference
  to a natively owned string, or throws.
* `loadAndSetCommonData path_str` (fl_icuext.hpp) runs against the process-wide
  ICU state; it returns an integer status or throws, and in both cases leaves
  an ICU state behind. Its declaration is not available; the status is taken
  to be of the width of the `jint` result, so that `return status` involves no
  narrowing, and no arithmetic is ever done on it.
* `sentinel` is the value the exception container returns after it caught an
  exception and `toManaged` the managed exception it signals for a native one
  (utils/jni_exception.h). -/
structure Externals (σ : Type) where
  j2std_string : JNIEnv → NativeStr → Except NativeException String
  loadAndSetCommonData : String → σ → Except NativeException Int × σ
  sentinel : Int
  toManaged : NativeException → JThrowable

/-- The call `fl::jni::j2std_string(env, path)` as a statement. -/
def callJ2stdString {σ : Type} (x : Externals σ) (path : NativeStr) :
    Native σ String :=
  fun p => (x.j2std_string p.env path, p)

/-- The call `fl::icuext::loadAndSetCommonData(path_str)` as a statement: the
loader runs on the current ICU state, the state it leaves replaces it (also
when it throws), and the invocation is appended to the call history. -/
def callLoadAndSetCommonData {σ : Type} (x : Externals σ) (path_str : String) :
    Native σ Int :=
  fun p =>
    let r := x.loadAndSetCommonData path_str p.icu
    (r.1, { p with icu := r.2, loaderCalls := p.loaderCalls ++ [path_str] })

/-- Modelled from the spec: `fl::jni::runInExceptionContainer` (declared in
utils/jni_exception.h, whose text is not among the sources). The spec describes
it as a utility that "wraps a unit of work, executes it, and on native
exception converts it into the managed runtime's exception-signaling protocol
before returning a sentinel value; exact sentinel value and exception type are
determined by this utility". The work is run once; a value it returns is
returned as it is; an exception it throws is signalled on `env` and the
sentinel is returned. -/
def runInExceptionContainer {σ α : Type} (sentinel : α)
    (toManaged : NativeException → JThrowable) (work : Native σ α) :
    Process σ → α × Process σ :=
  fun p =>
    match work p with
    | (Except.ok v, p') => (v, p')
    | (Except.error e, p') =>
        (sentinel, { p' with env := p'.env.Throw (toManaged e) })

/-- Modelled from the spec: `fl::jni::j2std_string` (declared in
utils/jni_utils.h, whose text is not among the sources). The spec has it
"convert the managed string reference to a natively-owned string copy" and
names "string-conversion failure (malformed/invalid managed string)" as a
failure that the boundary wrapper turns into a managed exception, so that "for
a null or malformed path reference, the call raises the managed exception
rather than dereferencing invalid memory": the conversion throws for the null
and for a malformed reference and copies the characters of a valid one. -/
def fl.jni.j2std_string (_env : JNIEnv) : NativeStr → Except NativeException String
  | NativeStr.null => Except.error { what := "null string reference" }
  | NativeStr.malformed => Except.error { what := "malformed string reference" }
  | NativeStr.valid chars => Except.ok chars

/-! ## The translated function -/

/-- The body of the lambda passed to the exception container
(FlorisApplication.cpp, lines 30 to 32). -/
def nativeInitICUData_body {σ : Type} (x : Externals σ) (path : NativeStr) :
    Native σ Int := do
  let path_str ← callJ2stdString x path
  let status ← callLoadAndSetCommonData x path_str
  return status

/-- The exported entry point (FlorisApplication.cpp, lines 23 to 34). The
receiver argument is unnamed and unused in the source and is left out; `env`
is the `env` component of the process state. The result pairs the returned
`jint` with the process state after the call. -/
def Java_dev_patrickgold_florisboard_FlorisApplication_00024Companion_nativeInitICUData
    {σ : Type} (x : Externals σ) (path : NativeStr) :
    Process σ → Int × Process σ :=
  runInExceptionContainer x.sentinel x.toManaged (nativeInitICUData_body x path)

/-! ## Concrete collaborators used to evaluate the model -/

/-- A sample loader over an ICU state that records the loaded data file: it
loads "/data/icu/icudt.dat" with status 0, throws for the empty path, and
reports every other path as unreadable through the given failure status. -/
def sampleLoader (failStatus : Int) (path_str : String) (icu : Option String) :
    Except NativeException Int × Option String :=
  if path_str = "/data/icu/icudt.dat" then (Except.ok 0, some path_str)
  else if path_str = "" then (Except.error { what := "empty path" }, icu)
  else (Except.ok failStatus, icu)

/-- Sample collaborators: the conversion modelled from the spec, the sample
loader, the sentinel 0 and a runtime exception carrying the native message. -/
def sampleExternals (failStatus : Int) : Externals (Option String) where
  j2std_string := fl.jni.j2std_string
  loadAndSetCommonData := sampleLoader failStatus
  sentinel := 0
  toManaged := fun e =>
    { className := "java/lang/RuntimeException", message := e.what }

/-- A process at the moment the runtime enters the native method for the first
time: nothing pending, no ICU data loaded, the loader never called. -/
def freshProcess : Process (Option String) :=
  { env := JNIEnv.entry, icu := none, loaderCalls := [] }

/-! ## Outcomes of a call -/

/-- The conversion threw, or it returned and the loader, run on the converted
path in the ICU state at entry, threw. -/
def Threw {σ : Type} (x : Externals σ) (path : NativeStr) (p : Process σ) : Prop :=
  (∃ e, x.j2std_string p.env path = Except.error e)
  ∨ ∃ path_str e, x.j2std_string p.env path = Except.ok path_str
      ∧ (x.loadAndSetCommonData path_str p.icu).1 = Except.error e

/-- The success outcome of a call that ended with result `r`: neither the
conversion nor the loader threw, no managed exception is pending, and the
returned integer is the status the loader returned. -/
def SuccessOutcome {σ : Type} (x : Externals σ) (path : NativeStr) (p : Process σ)
    (r : Int × Process σ) : Prop :=
  ¬ Threw x path p
  ∧ r.2.env.pending = none
  ∧ ∃ path_str status, x.j2std_string p.env path = Except.ok path_str
      ∧ (x.loadAndSetCommonData path_str p.icu).1 = Except.ok status
      ∧ r.1 = status

/-- The failure outcome of a call that ended with result `r`: a managed
exception is pending. -/
def FailureOutcome {σ : Type} (r : Int × Process σ) : Prop :=
  r.2.env.pending ≠ none

/-! ## How the entry point evaluates -/

/-- The entry point when the conversion throws: the loader statement is
skipped and the container signals the exception and returns the sentinel. -/
theorem entry_of_conversion_throw {σ : Type} (x : Externals σ) (path : NativeStr)
    (p : Process σ) (e : NativeException)
    (hconv : x.j2std_string p.env path = Except.error e) :
    Java_dev_patrickgold_florisboard_FlorisApplication_00024Companion_nativeInitICUData
        x path p
      = (x.sentinel, { p with env := p.env.Throw (x.toManaged e) }) := by
  simp [Java_dev_patrickgold_florisboard_FlorisApplication_00024Companion_nativeInitICUData,
    runInExceptionContainer, nativeInitICUData_body, bind, callJ2stdString, hconv]

/-- The entry point when the conversion and the loader both return. -/
theorem entry_of_loader_return {σ : Type} (x : Externals σ) (path : NativeStr)
    (p : Process σ) (path_str : String) (status : Int)
    (hconv : x.j2std_string p.env path = Except.ok path_str)
    (hload : (x.loadAndSetCommonData path_str p.icu).1 = Except.ok status) :
    Java_dev_patrickgold_florisboard_FlorisApplication_00024Companion_nativeInitICUData
        x path p
      = (status, { p with icu := (x.loadAndSetCommonData path_str p.icu).2,
                          loaderCalls := p.loaderCalls ++ [path_str] }) := by
  simp [Java_dev_patrickgold_florisboard_FlorisApplication_00024Companion_nativeInitICUData,
    runInExceptionContainer, nativeInitICUData_body, bind, pure, callJ2stdString,
    callLoadAndSetCommonData, hconv, hload]

/-- The entry point when the conversion returns and the loader throws. -/
theorem entry_of_loader_throw {σ : Type} (x : Externals σ) (path : NativeStr)
    (p : Process σ) (path_str : String) (e : NativeException)
    (hconv : x.j2std_string p.env path = Except.ok path_str)
    (hload : (x.loadAndSetCommonData path_str p.icu).1 = Except.error e) :
    Java_dev_patrickgold_florisboard_FlorisApplication_00024Companion_nativeInitICUData
        x path p
      = (x.sentinel, { env := p.env.Throw (x.toManaged e),
                       icu := (x.loadAndSetCommonData path_str p.icu).2,
                       loaderCalls := p.loaderCalls ++ [path_str] }) := by
  simp [Java_dev_patrickgold_florisboard_FlorisApplication_00024Companion_nativeInitICUData,
    runInExceptionContainer, nativeInitICUData_body, bind, pure, callJ2stdString,
    callLoadAndSetCommonData, hconv, hload]

/-! ## The claims -/

/-- C1: when the string conversion returns the converted path and the loader,
run on that path in the current ICU state, returns a status without throwing,
the entry point returns exactly that status. -/
theorem C1_status_passed_through {σ : Type} (x : Externals σ) (path : NativeStr)
    (p : Process σ) (path_str : String) (status : Int)
    (hconv : x.j2std_string p.env path = Except.ok path_str)
    (hload : (x.loadAndSetCommonData path_str p.icu).1 = Except.ok status) :
    (Java_dev_patrickgold_florisboard_FlorisApplication_00024Companion_nativeInitICUData
        x path p).1 = status := by
  rw [entry_of_loader_return x path p path_str status hconv hload]

/-- C1 at a concrete input: the sample loader returns 0 for
"/data/icu/icudt.dat" and the call returns 0. -/
theorem C1_status_passed_through_witness :
    (sampleExternals 4).j2std_string freshProcess.env
        (NativeStr.valid "/data/icu/icudt.dat") = Except.ok "/data/icu/icudt.dat"
    ∧ ((sampleExternals 4).loadAndSetCommonData "/data/icu/icudt.dat"
        freshProcess.icu).1 = Except.ok 0
    ∧ (Java_dev_patrickgold_florisboard_FlorisApplication_00024Companion_nativeInitICUData
        (sampleExternals 4) (NativeStr.valid "/data/icu/icudt.dat") freshProcess).1 = 0 :=
  ⟨by decide, by decide,
    C1_status_passed_through (sampleExternals 4) (NativeStr.valid "/data/icu/icudt.dat")
      freshProcess "/data/icu/icudt.dat" 0 (by decide) (by decide)⟩

/-- C2 fails as stated: with a loader that reports the nonexistent file
"/nonexistent" through a returned failure status (4, and likewise -1) without
throwing, the call returns that status normally and no managed exception is
pending afterwards. -/
theorem C2_failure_status_not_raised :
    ((sampleExternals 4).loadAndSetCommonData "/nonexistent" freshProcess.icu).1
        = Except.ok 4
    ∧ (Java_dev_patrickgold_florisboard_FlorisApplication_00024Companion_nativeInitICUData
        (sampleExternals 4) (NativeStr.valid "/nonexistent") freshProcess).1 = 4
    ∧ (Java_dev_patrickgold_florisboard_FlorisApplication_00024Companion_nativeInitICUData
        (sampleExternals 4) (NativeStr.valid "/nonexistent") freshProcess).2.env.pending
        = none
    ∧ ((sampleExternals (-1)).loadAndSetCommonData "/nonexistent" freshProcess.icu).1
        = Except.ok (-1)
    ∧ (Java_dev_patrickgold_florisboard_FlorisApplication_00024Companion_nativeInitICUData
        (sampleExternals (-1)) (NativeStr.valid "/nonexistent") freshProcess).1 = -1
    ∧ (Java_dev_patrickgold_florisboard_FlorisApplication_00024Companion_nativeInitICUData
        (sampleExternals (-1)) (NativeStr.valid "/nonexistent") freshProcess).2.env.pending
        = none := by
  decide

/-- C2 as amended: when the loader reports its outcome through a returned
status, whatever its value, and does not throw, the call returns that status
unmodified and leaves the JNI environment as it found it, so it raises no
managed exception. -/
theorem C2_returned_status_raises_nothing {σ : Type} (x : Externals σ)
    (path : NativeStr) (p : Process σ) (path_str : String) (status : Int)
    (hconv : x.j2std_string p.env path = Except.ok path_str)
    (hload : (x.loadAndSetCommonData path_str p.icu).1 = Except.ok status) :
    (Java_dev_patrickgold_florisboard_FlorisApplication_00024Companion_nativeInitICUData
        x path p).1 = status
    ∧ (Java_dev_patrickgold_florisboard_FlorisApplication_00024Companion_nativeInitICUData
        x path p).2.env = p.env := by
  rw [entry_of_loader_return x path p path_str status hconv hload]
  exact ⟨rfl, rfl⟩

/-- C2 as amended at a concrete input: the failure status 4 reported for
"/nonexistent" is returned and the environment is untouched. -/
theorem C2_returned_status_raises_nothing_witness :
    (sampleExternals 4).j2std_string freshProcess.env (NativeStr.valid "/nonexistent")
        = Except.ok "/nonexistent"
    ∧ ((sampleExternals 4).loadAndSetCommonData "/nonexistent" freshProcess.icu).1
        = Except.ok 4
    ∧ (Java_dev_patrickgold_florisboard_FlorisApplication_00024Companion_nativeInitICUData
        (sampleExternals 4) (NativeStr.valid "/nonexistent") freshProcess).1 = 4
    ∧ (Java_dev_patrickgold_florisboard_FlorisApplication_00024Companion_nativeInitICUData
        (sampleExternals 4) (NativeStr.valid "/nonexistent") freshProcess).2.env
        = freshProcess.env :=
  ⟨by decide, by decide,
    C2_returned_status_raises_nothing (sampleExternals 4) (NativeStr.valid "/nonexistent")
      freshProcess "/nonexistent" 4 (by decide) (by decide)⟩

/-- C3: when the string conversion throws, or it returns and the loader throws,
the exception does not leave the entry point: the call returns the
container's sentinel and the managed counterpart of the exception is pending
on the JNI environment. -/
theorem C3_native_exception_contained {σ : Type} (x : Externals σ) (path : NativeStr)
    (p : Process σ) (e : NativeException)
    (hthrow : x.j2std_string p.env path = Except.error e
      ∨ ∃ path_str, x.j2std_string p.env path = Except.ok path_str
          ∧ (x.loadAndSetCommonData path_str p.icu).1 = Except.error e) :
    (Java_dev_patrickgold_florisboard_FlorisApplication_00024Companion_nativeInitICUData
        x path p).1 = x.sentinel
    ∧ (Java_dev_patrickgold_florisboard_FlorisApplication_00024Companion_nativeInitICUData
        x path p).2.env.pending = some (x.toManaged e) := by
  rcases hthrow with hconv | ⟨path_str, hconv, hload⟩
  · rw [entry_of_conversion_throw x path p e hconv]
    exact ⟨rfl, rfl⟩
  · rw [entry_of_loader_throw x path p path_str e hconv hload]
    exact ⟨rfl, rfl⟩

/-- C3 at two concrete inputs: a loader that throws for the empty path, and a
conversion that throws for a malformed reference. -/
theorem C3_native_exception_contained_witness :
    ((Java_dev_patrickgold_florisboard_FlorisApplication_00024Companion_nativeInitICUData
        (sampleExternals 4) (NativeStr.valid "") freshProcess).1 = 0
      ∧ (Java_dev_patrickgold_florisboard_FlorisApplication_00024Companion_nativeInitICUData
          (sampleExternals 4) (NativeStr.valid "") freshProcess).2.env.pending
          = some { className := "java/lang/RuntimeException", message := "empty path" })
    ∧ ((Java_dev_patrickgold_florisboard_FlorisApplication_00024Companion_nativeInitICUData
        (sampleExternals 4) NativeStr.malformed freshProcess).1 = 0
      ∧ (Java_dev_patrickgold_florisboard_FlorisApplication_00024Companion_nativeInitICUData
          (sampleExternals 4) NativeStr.malformed freshProcess).2.env.pending
          = some { className := "java/lang/RuntimeException",
                   message := "malformed string reference" }) :=
  ⟨C3_native_exception_contained (sampleExternals 4) (NativeStr.valid "") freshProcess
      { what := "empty path" } (Or.inr ⟨"", by decide, by decide⟩),
   C3_native_exception_contained (sampleExternals 4) NativeStr.malformed freshProcess
      { what := "malformed string reference" } (Or.inl (by decide))⟩

/-- C4: with the conversion modelled from the spec, a call with the null
reference (or a malformed one) ends with a managed exception pending, the
loader has not been invoked and the ICU state is the one before the call. -/
theorem C4_invalid_reference_raises {σ : Type} (x : Externals σ) (path : NativeStr)
    (p : Process σ)
    (hx : x.j2std_string = fl.jni.j2std_string)
    (hpath : path = NativeStr.null ∨ path = NativeStr.malformed) :
    (Java_dev_patrickgold_florisboard_FlorisApplication_00024Companion_nativeInitICUData
        x path p).2.env.pending ≠ none
    ∧ (Java_dev_patrickgold_florisboard_FlorisApplication_00024Companion_nativeInitICUData
        x path p).2.loaderCalls = p.loaderCalls
    ∧ (Java_dev_patrickgold_florisboard_FlorisApplication_00024Companion_nativeInitICUData
        x path p).2.icu = p.icu := by
  rcases hpath with h | h
  · subst h
    rw [entry_of_conversion_throw x NativeStr.null p { what := "null string reference" }
      (by rw [hx]; rfl)]
    simp [JNIEnv.Throw]
  · subst h
    rw [entry_of_conversion_throw x NativeStr.malformed p
      { what := "malformed string reference" } (by rw [hx]; rfl)]
    simp [JNIEnv.Throw]

/-- C4 at a concrete input: the null reference with the sample collaborators. -/
theorem C4_invalid_reference_raises_witness :
    (Java_dev_patrickgold_florisboard_FlorisApplication_00024Companion_nativeInitICUData
        (sampleExternals 4) NativeStr.null freshProcess).2.env.pending ≠ none
    ∧ (Java_dev_patrickgold_florisboard_FlorisApplication_00024Companion_nativeInitICUData
        (sampleExternals 4) NativeStr.null freshProcess).2.loaderCalls
        = freshProcess.loaderCalls
    ∧ (Java_dev_patrickgold_florisboard_FlorisApplication_00024Companion_nativeInitICUData
        (sampleExternals 4) NativeStr.null freshProcess).2.icu = freshProcess.icu :=
  C4_invalid_reference_raises (sampleExternals 4) NativeStr.null freshProcess rfl
    (Or.inl rfl)

/-- C5: a call entered with no managed exception pending (as the runtime
enters a native method) ends in the success outcome or in the failure outcome
and never in both; a managed exception is pending afterwards only if the
conversion or the loader threw; and whenever the loader returned a status, no
managed exception is pending. -/
theorem C5_status_or_exception {σ : Type} (x : Externals σ) (path : NativeStr)
    (p : Process σ) (hentry : p.env.pending = none) :
    (SuccessOutcome x path p
        (Java_dev_patrickgold_florisboard_FlorisApplication_00024Companion_nativeInitICUData
          x path p)
      ∨ FailureOutcome
        (Java_dev_patrickgold_florisboard_FlorisApplication_00024Companion_nativeInitICUData
          x path p))
    ∧ ¬ (SuccessOutcome x path p
        (Java_dev_patrickgold_florisboard_FlorisApplication_00024Companion_nativeInitICUData
          x path p)
      ∧ FailureOutcome
        (Java_dev_patrickgold_florisboard_FlorisApplication_00024Companion_nativeInitICUData
          x path p))
    ∧ (FailureOutcome
        (Java_dev_patrickgold_florisboard_FlorisApplication_00024Companion_nativeInitICUData
          x path p) → Threw x path p)
    ∧ (∀ path_str status, x.j2std_string p.env path = Except.ok path_str →
        (x.loadAndSetCommonData path_str p.icu).1 = Except.ok status →
        (Java_dev_patrickgold_florisboard_FlorisApplication_00024Companion_nativeInitICUData
          x path p).1 = status
        ∧ (Java_dev_patrickgold_florisboard_FlorisApplication_00024Companion_nativeInitICUData
          x path p).2.env.pending = none) := by
  refine ⟨?_, fun h => h.2 h.1.2.1, ?_, ?_⟩
  · cases hconv : x.j2std_string p.env path with
    | error e =>
      right
      rw [entry_of_conversion_throw x path p e hconv]
      simp [FailureOutcome, JNIEnv.Throw]
    | ok path_str =>
      cases hload : (x.loadAndSetCommonData path_str p.icu).1 with
      | error e =>
        right
        rw [entry_of_loader_throw x path p path_str e hconv hload]
        simp [FailureOutcome, JNIEnv.Throw]
      | ok status =>
        left
        rw [entry_of_loader_return x path p path_str status hconv hload]
        refine ⟨?_, hentry, path_str, status, hconv, hload, rfl⟩
        rintro (⟨e, he⟩ | ⟨s, e, hs, he⟩)
        · rw [hconv] at he
          cases he
        · rw [hconv] at hs
          cases hs
          rw [hload] at he
          cases he
  · intro hfail
    cases hconv : x.j2std_string p.env path with
    | error e => exact Or.inl ⟨e, hconv⟩
    | ok path_str =>
      cases hload : (x.loadAndSetCommonData path_str p.icu).1 with
      | error e => exact Or.inr ⟨path_str, e, hconv, hload⟩
      | ok status =>
        rw [entry_of_loader_return x path p path_str status hconv hload] at hfail
        exact absurd hentry hfail
  · intro path_str status hconv hload
    rw [entry_of_loader_return x path p path_str status hconv hload]
    exact ⟨rfl, hentry⟩

/-- C5 at a concrete input: the sample collaborators on "/nonexistent",
entered with nothing pending. -/
theorem C5_status_or_exception_witness :
    freshProcess.env.pending = none
    ∧ (SuccessOutcome (sampleExternals 4) (NativeStr.valid "/nonexistent") freshProcess
        (Java_dev_patrickgold_florisboard_FlorisApplication_00024Companion_nativeInitICUData
          (sampleExternals 4) (NativeStr.valid "/nonexistent") freshProcess)
      ∨ FailureOutcome
        (Java_dev_patrickgold_florisboard_FlorisApplication_00024Companion_nativeInitICUData
          (sampleExternals 4) (NativeStr.valid "/nonexistent") freshProcess))
    ∧ ¬ (SuccessOutcome (sampleExternals 4) (NativeStr.valid "/nonexistent") freshProcess
        (Java_dev_patrickgold_florisboard_FlorisApplication_00024Companion_nativeInitICUData
          (sampleExternals 4) (NativeStr.valid "/nonexistent") freshProcess)
      ∧ FailureOutcome
        (Java_dev_patrickgold_florisboard_FlorisApplication_00024Companion_nativeInitICUData
          (sampleExternals 4) (NativeStr.valid "/nonexistent") freshProcess))
    ∧ (FailureOutcome
        (Java_dev_patrickgold_florisboard_FlorisApplication_00024Companion_nativeInitICUData
          (sampleExternals 4) (NativeStr.valid "/nonexistent") freshProcess)
        → Threw (sampleExternals 4) (NativeStr.valid "/nonexistent") freshProcess)
    ∧ (∀ path_str status,
        (sampleExternals 4).j2std_string freshProcess.env (NativeStr.valid "/nonexistent")
          = Except.ok path_str →
        ((sampleExternals 4).loadAndSetCommonData path_str freshProcess.icu).1
          = Except.ok status →
        (Java_dev_patrickgold_florisboard_FlorisApplication_00024Companion_nativeInitICUData
          (sampleExternals 4) (NativeStr.valid "/nonexistent") freshProcess).1 = status
        ∧ (Java_dev_patrickgold_florisboard_FlorisApplication_00024Companion_nativeInitICUData
          (sampleExternals 4) (NativeStr.valid "/nonexistent") freshProcess).2.env.pending
          = none) :=
  ⟨rfl, C5_status_or_exception (sampleExternals 4) (NativeStr.valid "/nonexistent")
    freshProcess rfl⟩

/-- C6: when the conversion returns the converted path, one call extends the
history of loader invocations by exactly one entry, the converted path, and
the ICU state after the call is the state that this one invocation left,
whether the loader returned a status or threw. -/
theorem C6_single_delegation {σ : Type} (x : Externals σ) (path : NativeStr)
    (p : Process σ) (path_str : String)
    (hconv : x.j2std_string p.env path = Except.ok path_str) :
    (Java_dev_patrickgold_florisboard_FlorisApplication_00024Companion_nativeInitICUData
        x path p).2.loaderCalls = p.loaderCalls ++ [path_str]
    ∧ (Java_dev_patrickgold_florisboard_FlorisApplication_00024Companion_nativeInitICUData
        x path p).2.icu = (x.loadAndSetCommonData path_str p.icu).2 := by
  cases hload : (x.loadAndSetCommonData path_str p.icu).1 with
  | error e =>
    rw [entry_of_loader_throw x path p path_str e hconv hload]
    exact ⟨rfl, rfl⟩
  | ok status =>
    rw [entry_of_loader_return x path p path_str status hconv hload]
    exact ⟨rfl, rfl⟩

/-- C6 at two concrete inputs: a loader call that returns and loads the data
file, and a loader call that throws. -/
theorem C6_single_delegation_witness :
    ((Java_dev_patrickgold_florisboard_FlorisApplication_00024Companion_nativeInitICUData
        (sampleExternals 4) (NativeStr.valid "/data/icu/icudt.dat") freshProcess).2.loaderCalls
        = [] ++ ["/data/icu/icudt.dat"]
      ∧ (Java_dev_patrickgold_florisboard_FlorisApplication_00024Companion_nativeInitICUData
        (sampleExternals 4) (NativeStr.valid "/data/icu/icudt.dat") freshProcess).2.icu
        = (sampleLoader 4 "/data/icu/icudt.dat" none).2)
    ∧ ((Java_dev_patrickgold_florisboard_FlorisApplication_00024Companion_nativeInitICUData
        (sampleExternals 4) (NativeStr.valid "") freshProcess).2.loaderCalls = [] ++ [""]
      ∧ (Java_dev_patrickgold_florisboard_FlorisApplication_00024Companion_nativeInitICUData
        (sampleExternals 4) (NativeStr.valid "") freshProcess).2.icu
        = (sampleLoader 4 "" none).2) :=
  ⟨C6_single_delegation (sampleExternals 4) (NativeStr.valid "/data/icu/icudt.dat")
      freshProcess "/data/icu/icudt.dat" rfl,
   C6_single_delegation (sampleExternals 4) (NativeStr.valid "") freshProcess "" rfl⟩

/-- C7: when the string conversion throws, the loader is not invoked during the
call (the history of loader invocations is the one before the call) and the
process-wide ICU state after the call equals the state before it. -/
theorem C7_conversion_precedes_delegation {σ : Type} (x : Externals σ)
    (path : NativeStr) (p : Process σ) (e : NativeException)
    (hconv : x.j2std_string p.env path = Except.error e) :
    (Java_dev_patrickgold_florisboard_FlorisApplication_00024Companion_nativeInitICUData
        x path p).2.loaderCalls = p.loaderCalls
    ∧ (Java_dev_patrickgold_florisboard_FlorisApplication_00024Companion_nativeInitICUData
        x path p).2.icu = p.icu := by
  rw [entry_of_conversion_throw x path p e hconv]
  exact ⟨rfl, rfl⟩

/-- C7 at a concrete input: a process in which ICU data is already loaded and a
malformed reference, whose conversion throws. -/
theorem C7_conversion_precedes_delegation_witness :
    (sampleExternals 4).j2std_string JNIEnv.entry NativeStr.malformed
        = Except.error { what := "malformed string reference" }
    ∧ (Java_dev_patrickgold_florisboard_FlorisApplication_00024Companion_nativeInitICUData
        (sampleExternals 4) NativeStr.malformed
        { env := JNIEnv.entry, icu := some "/data/icu/icudt.dat",
          loaderCalls := ["/data/icu/icudt.dat"] }).2.loaderCalls
        = ["/data/icu/icudt.dat"]
    ∧ (Java_dev_patrickgold_florisboard_FlorisApplication_00024Companion_nativeInitICUData
        (sampleExternals 4) NativeStr.malformed
        { env := JNIEnv.entry, icu := some "/data/icu/icudt.dat",
          loaderCalls := ["/data/icu/icudt.dat"] }).2.icu
        = some "/data/icu/icudt.dat" :=
  ⟨rfl, C7_conversion_precedes_delegation (sampleExternals 4) NativeStr.malformed
    { env := JNIEnv.entry, icu := some "/data/icu/icudt.dat",
      loaderCalls := ["/data/icu/icudt.dat"] }
    { what := "malformed string reference" } rfl⟩

end Floris
